import Mathlib

/-!
Verification development for the Synapse v2 backend: a shallow embedding of
the agent orchestrator, auth service and middleware, ORM validation rules,
and the learning analytics engine, with theorems settling the specification
claims about them.
-/

namespace Synapse

/-! ### Strings: JS-style lowercase and substring containment -/

/-- Boolean test that `needle` is a leading segment of `hay` (character lists). -/
def leadsB : List Char → List Char → Bool
  | [], _ => true
  | _ :: _, [] => false
  | a :: as, b :: bs => a == b && leadsB as bs

/-- Boolean test that `needle` occurs contiguously inside `hay`; models
JavaScript `String.prototype.includes`. -/
def substrB (needle : List Char) : List Char → Bool
  | [] => needle.isEmpty
  | c :: rest => leadsB needle (c :: rest) || substrB needle rest

/-- Models `hay.includes(needle)` on Lean strings. -/
def strIncludes (hay needle : String) : Bool :=
  substrB needle.data hay.data

/-- JavaScript `String.prototype.toLowerCase` restricted to its ASCII
action: lowercase every character. -/
def jsToLower (s : String) : String :=
  ⟨s.data.map Char.toLower⟩

/-! ### Agent types and routing (`AgentOrchestrator.determineOptimalAgent`) -/

/-- The five agent type tags of the TypeScript `AgentType` union. -/
inductive AgentType where
  | CONTENT_CURATOR
  | LEARNING_STRATEGIST
  | PRACTICE_COACH
  | RESEARCH_ASSISTANT
  | CONVERSATION_COACH
deriving DecidableEq, Repr

/-- The string form of each agent type tag, as it appears in template
interpolation such as the unavailable-agent error message. -/
def agentTypeName : AgentType → String
  | .CONTENT_CURATOR => "CONTENT_CURATOR"
  | .LEARNING_STRATEGIST => "LEARNING_STRATEGIST"
  | .PRACTICE_COACH => "PRACTICE_COACH"
  | .RESEARCH_ASSISTANT => "RESEARCH_ASSISTANT"
  | .CONVERSATION_COACH => "CONVERSATION_COACH"

/-- Embeds `AgentOrchestrator.determineOptimalAgent`: lowercase the message
and scan for fixed keyword substrings in a fixed order, first match wins,
defaulting to the conversation coach. -/
def determineOptimalAgent (message : String) : AgentType :=
  let m := jsToLower message
  if strIncludes m "practice" || strIncludes m "scenario" || strIncludes m "exercise" then
    .PRACTICE_COACH
  else if strIncludes m "research" || strIncludes m "latest" || strIncludes m "trends" then
    .RESEARCH_ASSISTANT
  else if strIncludes m "path" || strIncludes m "roadmap" || strIncludes m "plan" then
    .LEARNING_STRATEGIST
  else if strIncludes m "newsletter" || strIncludes m "article" || strIncludes m "content" then
    .CONTENT_CURATOR
  else
    .CONVERSATION_COACH

/-- The chat request payload fields that influence agent selection
(`processChatRequest`'s `data`). -/
structure ChatData where
  message : String
  preferredAgent : Option AgentType

/-- The agent chosen by `processChatRequest`:
`data.preferredAgent || this.determineOptimalAgent(data)`. -/
def chatAgentType (data : ChatData) : AgentType :=
  match data.preferredAgent with
  | some a => a
  | none => determineOptimalAgent data.message

/-! Spec-side restatement of the routing rule (for the refinement claim):
an ordered keyword table scanned left to right, first match wins. -/

/-- The keyword table exactly as the claim lists it, in claim order. -/
def claimKeywordTable : List (List String × AgentType) :=
  [ (["practice", "scenario", "exercise"], .PRACTICE_COACH),
    (["research", "latest", "trends"], .RESEARCH_ASSISTANT),
    (["path", "roadmap", "plan"], .LEARNING_STRATEGIST),
    (["newsletter", "article", "content"], .CONTENT_CURATOR) ]

/-- First-match-wins scan of a keyword table over an (already lowercased)
message, with the claim's default fallback. -/
def firstKeywordMatch (m : String) : List (List String × AgentType) → AgentType
  | [] => .CONVERSATION_COACH
  | (kws, t) :: rest =>
    if kws.any (fun k => strIncludes m k) then t else firstKeywordMatch m rest

/-- The routing rule exactly as the claim words it: a named preferred agent
is used as is; otherwise the lowercased message is scanned against the
keyword table. -/
def claimChatRoute (data : ChatData) : AgentType :=
  match data.preferredAgent with
  | some a => a
  | none => firstKeywordMatch (jsToLower data.message) claimKeywordTable

/-! ### Agent sessions (`AgentOrchestrator` session lifecycle) -/

/-- The `AgentSession` status enum of `models/AgentSession.js`. -/
inductive SessionStatus where
  | ACTIVE
  | COMPLETED
  | FAILED
  | TIMEOUT
deriving DecidableEq, Repr

/-- The fields of an `agent_sessions` row that the orchestrator reads and
writes: `startTimeSet` / `endTimeSet` record whether the corresponding
timestamp columns were assigned, `resultRecorded` whether `resultData` was
filled in by the success update. -/
structure AgentSessionRow where
  agentType : AgentType
  status : SessionStatus
  startTimeSet : Bool
  endTimeSet : Bool
  tokensUsed : Nat
  cost : Rat
  resultRecorded : Bool
  errorMessage : Option String
deriving DecidableEq, Repr

/-- Embeds `AgentOrchestrator.createAgentSession`: a fresh row with status
ACTIVE, `startTime: new Date()`, `tokensUsed: 0`, `cost: 0`, empty result
data and no error message. -/
def createAgentSession (t : AgentType) : AgentSessionRow :=
  { agentType := t
    status := .ACTIVE
    startTimeSet := true
    endTimeSet := false
    tokensUsed := 0
    cost := 0
    resultRecorded := false
    errorMessage := none }

/-- The shared try/catch pattern of the five orchestrator handlers: create
the session, look the agent up, run it (its result abstracted as the
`outcome` oracle), then update the session to COMPLETED with result data and
end time, or to FAILED with the error message and end time, rethrowing the
error.  Returns the created row, the row after the final update, and the
value or error the handler produces. -/
def runWithSession {R : Type} (t : AgentType) (unavailableMsg : String)
    (available : AgentType → Bool) (outcome : Except String R) :
    (AgentSessionRow × AgentSessionRow) × Except String R :=
  let created := createAgentSession t
  if available t then
    match outcome with
    | .ok r =>
      ((created,
        { created with status := .COMPLETED, resultRecorded := true, endTimeSet := true }),
       .ok r)
    | .error e =>
      ((created,
        { created with status := .FAILED, errorMessage := some e, endTimeSet := true }),
       .error e)
  else
    ((created,
      { created with
          status := .FAILED
          errorMessage := some unavailableMsg
          endTimeSet := true }),
     .error unavailableMsg)

/-- Embeds `AgentOrchestrator.processNewsletter` (session bookkeeping view). -/
def processNewsletter {R : Type} (available : AgentType → Bool)
    (outcome : Except String R) :
    (AgentSessionRow × AgentSessionRow) × Except String R :=
  runWithSession .CONTENT_CURATOR "Content Curator Agent not available" available outcome

/-- Embeds `AgentOrchestrator.generateLearningPath` (session bookkeeping view). -/
def generateLearningPath {R : Type} (available : AgentType → Bool)
    (outcome : Except String R) :
    (AgentSessionRow × AgentSessionRow) × Except String R :=
  runWithSession .LEARNING_STRATEGIST "Learning Strategist Agent not available"
    available outcome

/-- Embeds `AgentOrchestrator.generatePracticeScenario` (session bookkeeping view). -/
def generatePracticeScenario {R : Type} (available : AgentType → Bool)
    (outcome : Except String R) :
    (AgentSessionRow × AgentSessionRow) × Except String R :=
  runWithSession .PRACTICE_COACH "Practice Coach Agent not available" available outcome

/-- Embeds `AgentOrchestrator.processResearchQuery` (session bookkeeping view). -/
def processResearchQuery {R : Type} (available : AgentType → Bool)
    (outcome : Except String R) :
    (AgentSessionRow × AgentSessionRow) × Except String R :=
  runWithSession .RESEARCH_ASSISTANT "Research Assistant Agent not available"
    available outcome

/-- Embeds `AgentOrchestrator.processChatRequest`: the agent type comes from
the preferred agent or the keyword scan, and the unavailable-agent error is
the template string `` `${agentType} Agent not available` ``. -/
def processChatRequest {R : Type} (available : AgentType → Bool) (data : ChatData)
    (outcome : Except String R) :
    (AgentSessionRow × AgentSessionRow) × Except String R :=
  let t := chatAgentType data
  runWithSession t (agentTypeName t ++ " Agent not available") available outcome

/-- Embeds `AgentOrchestrator.processLearningRequest`: dispatch on the
request type tag; the five known tags run their handler (returning also the
session rows it created and finalized), any other tag throws
`Unknown request type: <tag>` without creating a session. -/
def processLearningRequest {R : Type} (available : AgentType → Bool)
    (requestType : String) (chat : ChatData) (outcome : Except String R) :
    Option (AgentSessionRow × AgentSessionRow) × Except String R :=
  if requestType == "NEWSLETTER_PROCESSING" then
    let (s, r) := processNewsletter available outcome
    (some s, r)
  else if requestType == "LEARNING_PATH_GENERATION" then
    let (s, r) := generateLearningPath available outcome
    (some s, r)
  else if requestType == "PRACTICE_SCENARIO" then
    let (s, r) := generatePracticeScenario available outcome
    (some s, r)
  else if requestType == "RESEARCH_QUERY" then
    let (s, r) := processResearchQuery available outcome
    (some s, r)
  else if requestType == "CHAT" then
    let (s, r) := processChatRequest available chat outcome
    (some s, r)
  else
    (none, .error ("Unknown request type: " ++ requestType))

/-- The agents registered with the orchestrator in the server assembly
(`orchestrator.registerAgent` calls): the content curator, learning
strategist, practice coach and research assistant, and no conversation
coach. -/
def serverRegisteredAgents : List AgentType :=
  [.CONTENT_CURATOR, .LEARNING_STRATEGIST, .PRACTICE_COACH, .RESEARCH_ASSISTANT]

/-- Availability test induced by the server's `registerAgent` calls
(`this.agents.get(type)` finds an agent exactly for registered types). -/
def serverAvailable (t : AgentType) : Bool :=
  serverRegisteredAgents.contains t

/-- The list of the five known request type tags. -/
def knownRequestTypes : List String :=
  ["NEWSLETTER_PROCESSING", "LEARNING_PATH_GENERATION", "PRACTICE_SCENARIO",
   "RESEARCH_QUERY", "CHAT"]

/-- The twelve routing keywords scanned by `determineOptimalAgent`. -/
def routingKeywords : List String :=
  ["practice", "scenario", "exercise", "research", "latest", "trends",
   "path", "roadmap", "plan", "newsletter", "article", "content"]

/-! ### LLM output parsing (`BaseAgent.extractInformation`,
`ContentCuratorAgent.processContent`) -/

/-- JSON values as far as the agents inspect them: arrays (checked with
`Array.isArray`), objects, and leaves collapsed to strings. -/
inductive JsonVal where
  | jArr (elems : List JsonVal)
  | jObj (fields : List (String × JsonVal))
  | jStr (s : String)

/-- Embeds `BaseAgent.extractInformation` after the completion call:
`JSON.parse` is attempted on the response text (`parseJson` models the
library parser, `llmText` the `response.content` the completion API
returned); on parse failure the object `` \x7b content: response.content \x7d ``
is substituted instead of throwing. -/
def extractInformation (parseJson : String → Option JsonVal) (llmText : String) :
    JsonVal :=
  match parseJson llmText with
  | some v => v
  | none => .jObj [("content", .jStr llmText)]

/-- Embeds the result-shape check of `ContentCuratorAgent.processContent`:
the extraction result must be an array of topics, otherwise the handler
throws `Failed to extract topics in expected format` and the request fails. -/
def processContent (parseJson : String → Option JsonVal) (llmText : String) :
    Except String (List JsonVal) :=
  match extractInformation parseJson llmText with
  | .jArr elems => .ok elems
  | _ => .error "Failed to extract topics in expected format"

/-! ### bcrypt and JWT library models (`AuthService`, `middleware/auth`) -/

/-- Model of a bcrypt hash: `bcrypt.compare` succeeds exactly on the
password the hash was produced from, so the hash is represented by that
password. -/
structure BcryptHash where
  source : String
deriving DecidableEq, Repr

/-- Models `bcrypt.hash` (salt folded away: compare only tests the source). -/
def bcryptHash (password : String) : BcryptHash := ⟨password⟩

/-- Models `bcrypt.compare`. -/
def bcryptCompare (password : String) (h : BcryptHash) : Bool :=
  password == h.source

/-- The JWT payload `AuthService.generateToken` signs (`iat`/`exp` are
library-added and not read back by the claims). -/
structure JWTPayload where
  userId : String
  email : String
  role : String
deriving DecidableEq, Repr

/-- Model of a signed JWT: payload plus the secret it was signed with;
verification against a secret succeeds exactly when the secrets agree. -/
structure SignedJwt where
  payload : JWTPayload
  secret : String
deriving DecidableEq, Repr

/-- Models `jwt.sign`. -/
def jwtSign (p : JWTPayload) (secret : String) : SignedJwt := ⟨p, secret⟩

/-- Models `jwt.verify` (returning `none` for an invalid signature). -/
def jwtVerifyLib (t : SignedJwt) (secret : String) : Option JWTPayload :=
  if t.secret == secret then some t.payload else none

/-! ### Users and the auth service (`AuthService`) -/

/-- The `preferences` JSONB blob (`models` User default). -/
structure UserPreferences where
  dailyTimeGoal : Nat
  difficulty : String
  topics : List String
  reminderTime : String
deriving DecidableEq, Repr

/-- The default preferences both the model and `AuthService.register` set. -/
def defaultPreferences : UserPreferences := ⟨30, "medium", [], "09:00"⟩

/-- A stored `users` row (the fields the auth service reads and writes). -/
structure StoredUser where
  id : String
  email : String
  password : BcryptHash
  firstName : String
  lastName : String
  role : String
  experience : String
  learningGoals : Option String
  industry : Option String
  preferences : UserPreferences
  lastActive : Int
  isActive : Bool
deriving DecidableEq, Repr

/-- The `UserProfile` shape returned to API clients: every stored field
except the password hash. -/
structure UserProfile where
  id : String
  email : String
  firstName : String
  lastName : String
  role : String
  experience : String
  learningGoals : Option String
  industry : Option String
  preferences : UserPreferences
  lastActive : Int
  isActive : Bool
deriving DecidableEq, Repr

/-- Embeds `AuthService.sanitizeUser`: copy every public field, drop the
password. -/
def sanitizeUser (u : StoredUser) : UserProfile :=
  { id := u.id
    email := u.email
    firstName := u.firstName
    lastName := u.lastName
    role := u.role
    experience := u.experience
    learningGoals := u.learningGoals
    industry := u.industry
    preferences := u.preferences
    lastActive := u.lastActive
    isActive := u.isActive }

/-- Models `User.findOne` by email over an in-memory store. -/
def findUserByEmail (store : List StoredUser) (email : String) : Option StoredUser :=
  store.find? (fun u => u.email == email)

/-- Models `User.findByPk`. -/
def findUserById (store : List StoredUser) (userId : String) : Option StoredUser :=
  store.find? (fun u => u.id == userId)

/-- Embeds `AuthService.generateToken`: sign `userId`/`email`/`role` with the
service's secret. -/
def generateToken (jwtSecret : String) (u : StoredUser) : SignedJwt :=
  jwtSign { userId := u.id, email := u.email, role := u.role } jwtSecret

/-- Embeds `AuthService.login`: find the user by email, compare the
password with bcrypt, update `lastActive`, and return the sanitized profile
with a fresh token; both failure modes are wrapped by the outer catch into
`Login failed: Invalid email or password`. -/
def loginService (jwtSecret : String) (store : List StoredUser)
    (email password : String) (now : Int) :
    Except String (UserProfile × SignedJwt) :=
  match findUserByEmail store email with
  | none => .error "Login failed: Invalid email or password"
  | some user =>
    if bcryptCompare password user.password then
      let updated := { user with lastActive := now }
      .ok (sanitizeUser updated, generateToken jwtSecret updated)
    else
      .error "Login failed: Invalid email or password"

/-- Embeds `AuthService.verifyToken`. -/
def verifyToken (jwtSecret : String) (t : SignedJwt) : Except String JWTPayload :=
  match jwtVerifyLib t jwtSecret with
  | some p => .ok p
  | none => .error "Invalid token"

/-- The registration payload of `AuthService.register`. -/
structure RegisterData where
  email : String
  password : String
  firstName : String
  lastName : String
  role : String
  experience : String
  learningGoals : Option String
  industry : Option String
deriving Repr

/-- Embeds `AuthService.register`: reject an existing email, hash the
password, create the user with default preferences, and return the
sanitized profile plus a token (`newId` models the generated UUID primary
key, `now` the creation instant). -/
def registerService (jwtSecret : String) (store : List StoredUser)
    (data : RegisterData) (newId : String) (now : Int) :
    Except String (List StoredUser × UserProfile × SignedJwt) :=
  match findUserByEmail store data.email with
  | some _ => .error "Registration failed: User with this email already exists"
  | none =>
    let user : StoredUser :=
      { id := newId
        email := data.email
        password := bcryptHash data.password
        firstName := data.firstName
        lastName := data.lastName
        role := data.role
        experience := data.experience
        learningGoals := data.learningGoals
        industry := data.industry
        preferences := defaultPreferences
        lastActive := now
        isActive := true }
    .ok (store ++ [user], sanitizeUser user, generateToken jwtSecret user)

/-- Embeds `AuthService.getUserById`: find by primary key and sanitize
(`null` for a missing user). -/
def getUserById (store : List StoredUser) (userId : String) : Option UserProfile :=
  (findUserById store userId).map sanitizeUser

/-- The updatable profile fields of `AuthService.updateUser`
(`Partial<UserProfile>` — note there is no password field to update). -/
structure ProfileUpdates where
  firstName : Option String
  lastName : Option String
  role : Option String
  experience : Option String
  learningGoals : Option (Option String)
  industry : Option (Option String)
deriving Repr

/-- Apply a partial profile update to a stored row. -/
def applyProfileUpdates (u : StoredUser) (upd : ProfileUpdates) : StoredUser :=
  { u with
    firstName := upd.firstName.getD u.firstName
    lastName := upd.lastName.getD u.lastName
    role := upd.role.getD u.role
    experience := upd.experience.getD u.experience
    learningGoals := upd.learningGoals.getD u.learningGoals
    industry := upd.industry.getD u.industry }

/-- Embeds `AuthService.updateUser`: find by primary key, apply the
updates, and return the sanitized updated profile. -/
def updateUserService (store : List StoredUser) (userId : String)
    (upd : ProfileUpdates) : Except String UserProfile :=
  match findUserById store userId with
  | none => .error "Failed to update user: User not found"
  | some u => .ok (sanitizeUser (applyProfileUpdates u upd))

/-! ### The `authenticateToken` middleware (`middleware/auth`) -/

/-- The JSON error envelope the middleware responds with. -/
structure ApiError where
  success : Bool
  error : String
deriving DecidableEq, Repr

/-- What the middleware does with a request: respond immediately with a
status and error body, or attach the decoded payload and call `next()` so
the protected handler runs. -/
inductive MiddlewareResult where
  | respond (status : Nat) (body : ApiError)
  | proceed (user : JWTPayload)
deriving DecidableEq, Repr

/-- JavaScript `String.prototype.split` with a single-character separator. -/
def jsSplitChar (sep : Char) : List Char → List (List Char)
  | [] => [[]]
  | c :: rest =>
    let r := jsSplitChar sep rest
    if c == sep then [] :: r
    else
      match r with
      | [] => [[c]]
      | h :: t => (c :: h) :: t

/-- Models `header.split` at spaces on Lean strings. -/
def jsSplitSpace (s : String) : List String :=
  (jsSplitChar ' ' s.data).map (fun l => ⟨l⟩)

/-- The token extraction `authHeader && authHeader.split(' ')[1]`:
a missing or empty (falsy) header yields no token, otherwise the second
space-separated part (possibly missing entirely). -/
def bearerToken (authHeader : Option String) : Option String :=
  match authHeader with
  | none => none
  | some h => if h == "" then none else (jsSplitSpace h).get? 1

/-- Embeds the `authenticateToken` middleware: 401 when no (truthy) token
was extracted, 500 when no JWT secret is configured, 403 when verification
of the token fails, and only on successful verification is the payload
attached and the protected handler allowed to run.  `verify` models
`jwt.verify` applied with the configured secret. -/
def authenticateToken (verify : String → Option JWTPayload)
    (jwtSecret : Option String) (authHeader : Option String) : MiddlewareResult :=
  match bearerToken authHeader with
  | none => .respond 401 ⟨false, "Access token is required"⟩
  | some t =>
    if t == "" then .respond 401 ⟨false, "Access token is required"⟩
    else
      match jwtSecret with
      | none => .respond 500 ⟨false, "JWT configuration error"⟩
      | some s =>
        if s == "" then .respond 500 ⟨false, "JWT configuration error"⟩
        else
          match verify t with
          | none => .respond 403 ⟨false, "Invalid or expired token"⟩
          | some p => .proceed p

/-- Two stored user rows that agree on every field except possibly the
password hash. -/
def samePublicFields (u v : StoredUser) : Prop :=
  u.id = v.id ∧ u.email = v.email ∧ u.firstName = v.firstName ∧
  u.lastName = v.lastName ∧ u.role = v.role ∧ u.experience = v.experience ∧
  u.learningGoals = v.learningGoals ∧ u.industry = v.industry ∧
  u.preferences = v.preferences ∧ u.lastActive = v.lastActive ∧
  u.isActive = v.isActive

/-! ### ORM-declared validation and uniqueness
(`models/UserProgress.js`, `models/AgentSession.js` LearningPath, User) -/

/-- The `user_progress` columns carrying declared validators and the
composite unique index. -/
structure UserProgressRow where
  userId : String
  topicId : String
  confidenceLevel : Int
  masteryScore : Rat
deriving DecidableEq, Repr

/-- The declared validators of `UserProgress`:
`confidenceLevel` min 1 max 10, `masteryScore` min 0.0 max 1.0. -/
def userProgressRowValid (r : UserProgressRow) : Bool :=
  decide (1 ≤ r.confidenceLevel) && decide (r.confidenceLevel ≤ 10) &&
  decide ((0 : Rat) ≤ r.masteryScore) && decide (r.masteryScore ≤ 1)

/-- The composite key of the unique `(userId, topicId)` index. -/
def sameProgressKey (a b : UserProgressRow) : Bool :=
  a.userId == b.userId && a.topicId == b.topicId

/-- Embeds `UserProgress.create` through the ORM: run the declared validators,
enforce the unique `(userId, topicId)` index, then insert. -/
def createUserProgress (store : List UserProgressRow) (r : UserProgressRow) :
    Except String (List UserProgressRow) :=
  if !(userProgressRowValid r) then .error "Validation error"
  else if store.any (fun x => sameProgressKey x r) then
    .error "Unique constraint violation"
  else .ok (store ++ [r])

/-- An update payload for the validated `UserProgress` columns. -/
structure UserProgressUpdates where
  confidenceLevel : Option Int
  masteryScore : Option Rat
deriving Repr

/-- Merge an update payload into a row (keys are not updatable here). -/
def applyUserProgressUpdates (r : UserProgressRow) (u : UserProgressUpdates) :
    UserProgressRow :=
  { r with
    confidenceLevel := u.confidenceLevel.getD r.confidenceLevel
    masteryScore := u.masteryScore.getD r.masteryScore }

/-- Embeds `UserProgress.update` through the ORM on the rows matching a key:
validators run on the updated rows before anything is written. -/
def updateUserProgress (store : List UserProgressRow) (userId topicId : String)
    (u : UserProgressUpdates) : Except String (List UserProgressRow) :=
  if store.any (fun x => x.userId == userId && x.topicId == topicId &&
      !(userProgressRowValid (applyUserProgressUpdates x u))) then
    .error "Validation error"
  else
    .ok (store.map (fun x =>
      if x.userId == userId && x.topicId == topicId then
        applyUserProgressUpdates x u
      else x))

/-- The `user_progress` table invariant: every row within bounds and no two
rows sharing a `(userId, topicId)` pair. -/
def userProgressStoreInv (store : List UserProgressRow) : Prop :=
  (∀ r ∈ store, userProgressRowValid r = true) ∧
  store.Pairwise (fun a b => sameProgressKey a b = false)

/-- The `learning_paths` columns relevant to the declared `progress`
validator. -/
structure LearningPathRow where
  id : String
  userId : String
  progress : Rat
deriving DecidableEq, Repr

/-- The declared validator of `LearningPath.progress`: min 0.0 max 1.0. -/
def learningPathRowValid (r : LearningPathRow) : Bool :=
  decide ((0 : Rat) ≤ r.progress) && decide (r.progress ≤ 1)

/-- Embeds `LearningPath.create` through the ORM. -/
def createLearningPath (store : List LearningPathRow) (r : LearningPathRow) :
    Except String (List LearningPathRow) :=
  if !(learningPathRowValid r) then .error "Validation error"
  else .ok (store ++ [r])

/-- Embeds `LearningPath.update` of the `progress` column by primary key. -/
def updateLearningPathProgress (store : List LearningPathRow) (id : String)
    (p : Rat) : Except String (List LearningPathRow) :=
  if store.any (fun x => x.id == id &&
      !(learningPathRowValid { x with progress := p })) then
    .error "Validation error"
  else .ok (store.map (fun x => if x.id == id then { x with progress := p } else x))

/-- Every `learning_paths` row within the declared progress bounds. -/
def learningPathStoreValid (store : List LearningPathRow) : Prop :=
  ∀ r ∈ store, learningPathRowValid r = true

/-- Embeds `User.create` through the ORM: the unique index on `email`. -/
def createUserRow (store : List StoredUser) (u : StoredUser) :
    Except String (List StoredUser) :=
  if store.any (fun x => x.email == u.email) then .error "Unique constraint violation"
  else .ok (store ++ [u])

/-- No two `users` rows share an email. -/
def userEmailsUnique (store : List StoredUser) : Prop :=
  store.Pairwise (fun a b => a.email ≠ b.email)

/-! ### Learning analytics (`LearningAnalyticsEngine`) -/

/-- The `UserProgress.status` enum. -/
inductive ProgressStatus where
  | NOT_STARTED
  | IN_PROGRESS
  | COMPLETED
  | MASTERED
deriving DecidableEq, Repr

/-- The progress-row fields `calculateUserAnalytics` reads (`completedAt`
as a day number, `none` for NULL). -/
structure UserProgressEntry where
  status : ProgressStatus
  timeSpentMinutes : Int
  completedAt : Option Int
deriving DecidableEq, Repr

/-- The learning-session fields `calculateAverageConfidenceGain` reads
(`none` for NULL). -/
structure LearningSessionEntry where
  confidenceBefore : Option Int
  confidenceAfter : Option Int
deriving DecidableEq, Repr

/-- JavaScript truthiness of a nullable numeric column: NULL, undefined and
0 are falsy. -/
def jsTruthy : Option Int → Bool
  | none => false
  | some v => v != 0

/-- Embeds `calculateLearningVelocity`: count this user's COMPLETED rows
whose `completedAt` lies within the last 28 days (`Op.gte`, NULL excluded)
and divide by 4 to get topics per week. -/
def calculateLearningVelocity (today : Int) (progress : List UserProgressEntry) :
    Rat :=
  let recentCompletions := (progress.filter (fun p =>
    p.status == .COMPLETED &&
    (match p.completedAt with
     | some d => decide (today - 28 ≤ d)
     | none => false))).length
  (recentCompletions : Rat) / 4

/-- Embeds `calculateAverageConfidenceGain`: keep the sessions whose
`confidenceBefore` and `confidenceAfter` are truthy and whose after-value
strictly exceeds the before-value, and average the gains (0 when no session
qualifies). -/
def calculateAverageConfidenceGain (sessions : List LearningSessionEntry) : Rat :=
  let g := sessions.filter (fun s =>
    jsTruthy s.confidenceBefore && jsTruthy s.confidenceAfter &&
    decide (s.confidenceBefore.getD 0 < s.confidenceAfter.getD 0))
  if g.length = 0 then 0
  else
    ((g.foldl (fun acc s => acc + (s.confidenceAfter.getD 0 - s.confidenceBefore.getD 0))
      (0 : Int) : Int) : Rat) / (g.length : Rat)

/-- The aggregates of `calculateUserAnalytics` the claim speaks about. -/
structure LearningAnalytics where
  totalTopicsCompleted : Nat
  totalTimeSpentMinutes : Int
  learningVelocity : Rat
  averageConfidenceGain : Rat
deriving Repr

/-- Embeds the aggregate computations of `calculateUserAnalytics` over the
user's stored rows: completed-row count, summed minutes, velocity and
average confidence gain. -/
def calculateUserAnalytics (today : Int) (progress : List UserProgressEntry)
    (sessions : List LearningSessionEntry) : LearningAnalytics :=
  { totalTopicsCompleted := (progress.filter (fun p => p.status == .COMPLETED)).length
    totalTimeSpentMinutes := progress.foldl (fun sum p => sum + p.timeSpentMinutes) 0
    learningVelocity := calculateLearningVelocity today progress
    averageConfidenceGain := calculateAverageConfidenceGain sessions }

/-- The average-gain aggregate exactly as the claim words it: the
arithmetic mean of `confidenceAfter - confidenceBefore` over the sessions
that record both confidence values. -/
def claimAverageConfidenceGain (sessions : List LearningSessionEntry) : Rat :=
  let g := sessions.filter (fun s =>
    s.confidenceBefore.isSome && s.confidenceAfter.isSome)
  (((g.map (fun s => s.confidenceAfter.getD 0 - s.confidenceBefore.getD 0)).sum : Int) :
    Rat) / (g.length : Rat)

end Synapse

namespace Synapse

/-- C1 The chat agent selection implemented by `processChatRequest` /
`determineOptimalAgent` coincides with the claim's description: with no
preferred agent, the lowercased message is scanned for the fixed keyword
groups in the fixed order (practice/scenario/exercise, then
research/latest/trends, then path/roadmap/plan, then
newsletter/article/content), first match wins, defaulting to
CONVERSATION_COACH; a named preferred agent is used instead of the scan. -/
theorem chat_routing_matches_claim (data : ChatData) :
    chatAgentType data = claimChatRoute data := by
  cases data with
  | mk message preferredAgent =>
    cases preferredAgent with
    | some a => rfl
    | none =>
      simp only [chatAgentType, claimChatRoute, determineOptimalAgent,
        claimKeywordTable, firstKeywordMatch, List.any_cons, List.any_nil,
        Bool.or_false, Bool.or_assoc]

/-- Helper: the shared handler pattern always keeps the created row intact,
sets the end time on the final update, and finalizes to COMPLETED with
result data on success and to FAILED with the propagated error message on
failure. -/
theorem runWithSession_lifecycle {R : Type} (t : AgentType) (msg : String)
    (available : AgentType → Bool) (outcome : Except String R) :
    (runWithSession t msg available outcome).1.1 = createAgentSession t ∧
    (runWithSession t msg available outcome).1.2.endTimeSet = true ∧
    (∀ r, (runWithSession t msg available outcome).2 = .ok r →
      (runWithSession t msg available outcome).1.2.status = .COMPLETED ∧
      (runWithSession t msg available outcome).1.2.resultRecorded = true) ∧
    (∀ e, (runWithSession t msg available outcome).2 = .error e →
      (runWithSession t msg available outcome).1.2.status = .FAILED ∧
      (runWithSession t msg available outcome).1.2.errorMessage = some e) := by
  unfold runWithSession
  by_cases h : available t = true
  · cases outcome with
    | ok r => simp [h]
    | error e => simp [h]
  · simp only [Bool.not_eq_true] at h
    simp [h]

/-- C3 Every orchestrated request with a known type tag first creates an
AgentSession row with status ACTIVE, its start time set, and zero tokensUsed
and cost; the finalized row always carries an end time, and it is COMPLETED
with result data recorded when the handler's result propagates as a success,
and FAILED with the propagated error message recorded when the handler's
error propagates to the caller. -/
theorem session_lifecycle {R : Type} (available : AgentType → Bool)
    (tag : String) (chat : ChatData) (outcome : Except String R)
    (htag : tag ∈ knownRequestTypes) :
    ∃ created final,
      (processLearningRequest available tag chat outcome).1 = some (created, final) ∧
      created.status = .ACTIVE ∧ created.startTimeSet = true ∧
      created.tokensUsed = 0 ∧ created.cost = 0 ∧
      final.endTimeSet = true ∧
      (∀ r, (processLearningRequest available tag chat outcome).2 = .ok r →
        final.status = .COMPLETED ∧ final.resultRecorded = true) ∧
      (∀ e, (processLearningRequest available tag chat outcome).2 = .error e →
        final.status = .FAILED ∧ final.errorMessage = some e) := by
  have main : ∀ (t : AgentType) (msg : String),
      ∃ created final,
        ((runWithSession t msg available outcome).1 = (created, final)) ∧
        created.status = .ACTIVE ∧ created.startTimeSet = true ∧
        created.tokensUsed = 0 ∧ created.cost = 0 ∧
        final.endTimeSet = true ∧
        (∀ r, (runWithSession t msg available outcome).2 = .ok r →
          final.status = .COMPLETED ∧ final.resultRecorded = true) ∧
        (∀ e, (runWithSession t msg available outcome).2 = .error e →
          final.status = .FAILED ∧ final.errorMessage = some e) := by
    intro t msg
    obtain ⟨hc, he, hok, herr⟩ := runWithSession_lifecycle t msg available outcome
    refine ⟨(runWithSession t msg available outcome).1.1,
      (runWithSession t msg available outcome).1.2, rfl, ?_, ?_, ?_, ?_, he, hok, herr⟩
    all_goals simp [hc, createAgentSession]
  simp only [knownRequestTypes, List.mem_cons, List.mem_singleton,
    List.not_mem_nil, or_false] at htag
  rcases htag with h | h | h | h | h <;> subst h <;>
    simp only [processLearningRequest, processNewsletter, generateLearningPath,
      generatePracticeScenario, processResearchQuery, processChatRequest] <;>
  · first
    | (obtain ⟨c, f, h1, h⟩ := main .CONTENT_CURATOR "Content Curator Agent not available"
       exact ⟨c, f, by simp [h1], h⟩)
    | (obtain ⟨c, f, h1, h⟩ :=
        main .LEARNING_STRATEGIST "Learning Strategist Agent not available"
       exact ⟨c, f, by simp [h1], h⟩)
    | (obtain ⟨c, f, h1, h⟩ := main .PRACTICE_COACH "Practice Coach Agent not available"
       exact ⟨c, f, by simp [h1], h⟩)
    | (obtain ⟨c, f, h1, h⟩ :=
        main .RESEARCH_ASSISTANT "Research Assistant Agent not available"
       exact ⟨c, f, by simp [h1], h⟩)
    | (obtain ⟨c, f, h1, h⟩ := main (chatAgentType chat)
        (agentTypeName (chatAgentType chat) ++ " Agent not available")
       exact ⟨c, f, by simp [h1], h⟩)

/-- C3 witness: a concrete chat request with all agents available and a
successful handler outcome. -/
theorem session_lifecycle_witness :
    "CHAT" ∈ knownRequestTypes ∧
    ∃ created final,
      (processLearningRequest (fun _ => true) "CHAT" ⟨"hi", none⟩
        (Except.ok (0 : Nat))).1 = some (created, final) ∧
      created.status = .ACTIVE ∧ created.startTimeSet = true ∧
      created.tokensUsed = 0 ∧ created.cost = 0 ∧
      final.endTimeSet = true ∧
      (∀ r, (processLearningRequest (fun _ => true) "CHAT" ⟨"hi", none⟩
        (Except.ok (0 : Nat))).2 = .ok r →
        final.status = .COMPLETED ∧ final.resultRecorded = true) ∧
      (∀ e, (processLearningRequest (fun _ => true) "CHAT" ⟨"hi", none⟩
        (Except.ok (0 : Nat))).2 = .error e →
        final.status = .FAILED ∧ final.errorMessage = some e) :=
  ⟨by simp [knownRequestTypes],
   session_lifecycle (fun _ => true) "CHAT" ⟨"hi", none⟩ (Except.ok 0)
     (by simp [knownRequestTypes])⟩

/-- C4 `processLearningRequest` on an unknown request type tag throws
`Unknown request type: <tag>` without creating any session record or
invoking any handler. -/
theorem unknown_request_type_rejected {R : Type} (available : AgentType → Bool)
    (tag : String) (chat : ChatData) (outcome : Except String R)
    (h : tag ∉ knownRequestTypes) :
    processLearningRequest available tag chat outcome =
      (none, .error ("Unknown request type: " ++ tag)) := by
  simp only [knownRequestTypes, List.mem_cons, List.mem_singleton,
    List.not_mem_nil, or_false, not_or] at h
  obtain ⟨h1, h2, h3, h4, h5⟩ := h
  simp [processLearningRequest, h1, h2, h3, h4, h5]

/-- C4 witness: the concrete tag FOO is rejected with the exact message. -/
theorem unknown_request_type_rejected_witness :
    "FOO" ∉ knownRequestTypes ∧
    processLearningRequest (fun _ => true) "FOO" ⟨"hi", none⟩ (Except.ok (0 : Nat)) =
      (none, .error ("Unknown request type: " ++ "FOO")) :=
  ⟨by simp [knownRequestTypes],
   unknown_request_type_rejected (fun _ => true) "FOO" ⟨"hi", none⟩ (Except.ok 0)
     (by simp [knownRequestTypes])⟩

/-- C9 In the server as assembled (only the four content/strategy/practice/
research agents registered), a chat request naming no preferred agent whose
message contains none of the routing keywords routes to the unregistered
CONVERSATION_COACH, fails with the error
`CONVERSATION_COACH Agent not available`, and its session is finalized as
FAILED with that error message recorded — regardless of what any agent
would have returned. -/
theorem conversation_coach_fallback_always_fails {R : Type} (msg : String)
    (outcome : Except String R)
    (h : routingKeywords.all (fun k => !(strIncludes (jsToLower msg) k)) = true) :
    (processChatRequest serverAvailable ⟨msg, none⟩ outcome).2 =
      .error "CONVERSATION_COACH Agent not available" ∧
    (processChatRequest serverAvailable ⟨msg, none⟩ outcome).1.2.status = .FAILED ∧
    (processChatRequest serverAvailable ⟨msg, none⟩ outcome).1.2.errorMessage =
      some "CONVERSATION_COACH Agent not available" ∧
    (processChatRequest serverAvailable ⟨msg, none⟩ outcome).1.1.agentType =
      .CONVERSATION_COACH := by
  simp only [routingKeywords, List.all_cons, List.all_nil, Bool.and_true,
    Bool.and_eq_true, Bool.not_eq_true'] at h
  obtain ⟨k1, k2, k3, k4, k5, k6, k7, k8, k9, k10, k11, k12⟩ := h
  have hroute : chatAgentType ⟨msg, none⟩ = .CONVERSATION_COACH := by
    simp [chatAgentType, determineOptimalAgent, k1, k2, k3, k4, k5, k6, k7, k8,
      k9, k10, k11, k12]
  have hmsg : agentTypeName AgentType.CONVERSATION_COACH ++ " Agent not available" =
      "CONVERSATION_COACH Agent not available" := rfl
  have hunavail : serverAvailable AgentType.CONVERSATION_COACH = false := rfl
  simp [processChatRequest, hroute, hmsg, runWithSession, hunavail,
    createAgentSession]

/-- C9 witness: the concrete keyword-free message `hi`. -/
theorem conversation_coach_fallback_always_fails_witness :
    routingKeywords.all (fun k => !(strIncludes (jsToLower "hi") k)) = true ∧
    (processChatRequest serverAvailable ⟨"hi", none⟩ (Except.ok (0 : Nat))).2 =
      .error "CONVERSATION_COACH Agent not available" ∧
    (processChatRequest serverAvailable ⟨"hi", none⟩
      (Except.ok (0 : Nat))).1.2.status = .FAILED ∧
    (processChatRequest serverAvailable ⟨"hi", none⟩
      (Except.ok (0 : Nat))).1.2.errorMessage =
      some "CONVERSATION_COACH Agent not available" ∧
    (processChatRequest serverAvailable ⟨"hi", none⟩
      (Except.ok (0 : Nat))).1.1.agentType = .CONVERSATION_COACH :=
  ⟨by decide, conversation_coach_fallback_always_fails "hi" (Except.ok 0) (by decide)⟩

/-- C2 counterexample: a completion response that is not valid JSON makes
the newsletter-processing request fail with an error, contradicting the
claim that the fallback object keeps the request from failing. -/
theorem json_fallback_counterexample :
    processContent (fun _ => none) "plain text reply" =
      .error "Failed to extract topics in expected format" := rfl

/-- C2 (amended) `extractInformation` attempts JSON.parse on the completion
response text and on parse failure substitutes the fallback object
`` \x7b content: <response text> \x7d `` instead of throwing; but the request may
still fail: `processContent` rejects the non-array fallback and throws
`Failed to extract topics in expected format`. -/
theorem json_fallback_behavior (parseJson : String → Option JsonVal)
    (llmText : String) (h : parseJson llmText = none) :
    extractInformation parseJson llmText = .jObj [("content", .jStr llmText)] ∧
    processContent parseJson llmText =
      .error "Failed to extract topics in expected format" := by
  constructor
  · simp [extractInformation, h]
  · simp [processContent, extractInformation, h]

/-- C2 witness: a concrete parser failure. -/
theorem json_fallback_behavior_witness :
    ((fun _ => none) : String → Option JsonVal) "x" = none ∧
    extractInformation (fun _ => none) "x" = .jObj [("content", .jStr "x")] ∧
    processContent (fun _ => none) "x" =
      .error "Failed to extract topics in expected format" :=
  ⟨rfl, json_fallback_behavior (fun _ => none) "x" rfl⟩

/-- C5 A registered active user's login with the correct password returns a
token that authorizes subsequent calls: `verifyToken` with the same secret
succeeds and its payload carries exactly the stored `userId`, `email` and
`role`. -/
theorem login_token_authorizes (jwtSecret : String) (store : List StoredUser)
    (email password : String) (now : Int) (u : StoredUser)
    (hfind : findUserByEmail store email = some u)
    (hpw : u.password = bcryptHash password)
    (hactive : u.isActive = true) :
    ∃ profile token,
      loginService jwtSecret store email password now = .ok (profile, token) ∧
      verifyToken jwtSecret token =
        .ok { userId := u.id, email := u.email, role := u.role } := by
  refine ⟨sanitizeUser { u with lastActive := now },
    generateToken jwtSecret { u with lastActive := now }, ?_, ?_⟩
  · simp [loginService, hfind, bcryptCompare, hpw, bcryptHash]
  · simp [verifyToken, generateToken, jwtSign, jwtVerifyLib]

/-- C5 witness: a concrete one-user store. -/
theorem login_token_authorizes_witness :
    findUserByEmail [⟨"u1", "a@b.c", bcryptHash "pw", "Ada", "L", "PM",
      "Beginner", none, none, defaultPreferences, 0, true⟩] "a@b.c" =
      some ⟨"u1", "a@b.c", bcryptHash "pw", "Ada", "L", "PM",
        "Beginner", none, none, defaultPreferences, 0, true⟩ ∧
    (⟨"u1", "a@b.c", bcryptHash "pw", "Ada", "L", "PM",
      "Beginner", none, none, defaultPreferences, 0, true⟩ : StoredUser).password =
      bcryptHash "pw" ∧
    (⟨"u1", "a@b.c", bcryptHash "pw", "Ada", "L", "PM",
      "Beginner", none, none, defaultPreferences, 0, true⟩ : StoredUser).isActive = true ∧
    ∃ profile token,
      loginService "secret" [⟨"u1", "a@b.c", bcryptHash "pw", "Ada", "L", "PM",
        "Beginner", none, none, defaultPreferences, 0, true⟩] "a@b.c" "pw" 5 =
        .ok (profile, token) ∧
      verifyToken "secret" token = .ok { userId := "u1", email := "a@b.c", role := "PM" } :=
  ⟨rfl, rfl, rfl,
   login_token_authorizes "secret"
     [⟨"u1", "a@b.c", bcryptHash "pw", "Ada", "L", "PM",
       "Beginner", none, none, defaultPreferences, 0, true⟩] "a@b.c" "pw" 5
     ⟨"u1", "a@b.c", bcryptHash "pw", "Ada", "L", "PM",
       "Beginner", none, none, defaultPreferences, 0, true⟩ rfl rfl rfl⟩

/-- C6 The middleware on a guarded endpoint, with the secret configured:
a missing or absent bearer token responds 401 with the error envelope, a
present token that fails verification responds 403 with the error envelope,
and the protected handler runs (the middleware proceeds) only when
verification succeeded on the extracted token. -/
theorem auth_middleware_guard (verify : String → Option JWTPayload)
    (s : String) (authHeader : Option String) (hs : s ≠ "") :
    (bearerToken authHeader = none ∨ bearerToken authHeader = some "" →
      authenticateToken verify (some s) authHeader =
        .respond 401 ⟨false, "Access token is required"⟩) ∧
    (∀ t, bearerToken authHeader = some t → t ≠ "" → verify t = none →
      authenticateToken verify (some s) authHeader =
        .respond 403 ⟨false, "Invalid or expired token"⟩) ∧
    (∀ p, authenticateToken verify (some s) authHeader = .proceed p →
      ∃ t, bearerToken authHeader = some t ∧ verify t = some p) := by
  refine ⟨?_, ?_, ?_⟩
  · rintro (h | h) <;> simp [authenticateToken, h]
  · intro t ht hne hv
    simp [authenticateToken, ht, hne, hs, hv]
  · intro p hp
    unfold authenticateToken at hp
    cases hb : bearerToken authHeader with
    | none => rw [hb] at hp; exact absurd hp (by simp)
    | some t =>
      rw [hb] at hp
      by_cases hte : t = ""
      · simp [hte] at hp
      · simp only [hte, beq_iff_eq, if_neg, reduceIte] at hp
        by_cases hse : s = ""
        · exact absurd hse hs
        · simp only [hse, beq_iff_eq, reduceIte] at hp
          cases hv : verify t with
          | none => rw [hv] at hp; exact absurd hp (by simp)
          | some q =>
            rw [hv] at hp
            refine ⟨t, rfl, ?_⟩
            rw [hv]
            cases hp
            rfl

/-- C6 witness: a request with no Authorization header is rejected 401. -/
theorem auth_middleware_guard_witness :
    ("secret" : String) ≠ "" ∧
    (bearerToken none = none ∨ bearerToken none = some "") ∧
    authenticateToken (fun _ => none) (some "secret") none =
      .respond 401 ⟨false, "Access token is required"⟩ :=
  ⟨by decide, Or.inl rfl,
   (auth_middleware_guard (fun _ => none) "secret" none (by decide)).1 (Or.inl rfl)⟩

/-- Helper: sanitization is determined by the public fields alone. -/
theorem sanitizeUser_congr (u v : StoredUser) (h : samePublicFields u v) :
    sanitizeUser u = sanitizeUser v := by
  obtain ⟨h1, h2, h3, h4, h5, h6, h7, h8, h9, h10, h11⟩ := h
  simp [sanitizeUser, h1, h2, h3, h4, h5, h6, h7, h8, h9, h10, h11]

/-- Helper: profile updates preserve agreement on the public fields. -/
theorem applyProfileUpdates_samePublic (u v : StoredUser) (upd : ProfileUpdates)
    (h : samePublicFields u v) :
    samePublicFields (applyProfileUpdates u upd) (applyProfileUpdates v upd) := by
  obtain ⟨h1, h2, h3, h4, h5, h6, h7, h8, h9, h10, h11⟩ := h
  exact ⟨h1, h2, by simp [applyProfileUpdates, h3], by simp [applyProfileUpdates, h4],
    by simp [applyProfileUpdates, h5], by simp [applyProfileUpdates, h6],
    by simp [applyProfileUpdates, h7], by simp [applyProfileUpdates, h8],
    by simp [applyProfileUpdates, h9], by simp [applyProfileUpdates, h10],
    by simp [applyProfileUpdates, h11]⟩

/-- Helper: looking a user up by primary key in two stores that agree on
all public fields finds related rows (or nothing in both). -/
theorem findUserById_rel (s1 s2 : List StoredUser) (userId : String)
    (h : List.Forall₂ samePublicFields s1 s2) :
    (findUserById s1 userId = none ∧ findUserById s2 userId = none) ∨
    (∃ u v, findUserById s1 userId = some u ∧ findUserById s2 userId = some v ∧
      samePublicFields u v) := by
  induction h with
  | nil => exact Or.inl ⟨rfl, rfl⟩
  | cons huv htail ih =>
    rename_i a b l1 l2
    by_cases hid : a.id = userId
    · refine Or.inr ⟨a, b, ?_, ?_, huv⟩
      · simp [findUserById, List.find?, hid]
      · simp [findUserById, List.find?, huv.1 ▸ hid]
    · have hid2 : b.id ≠ userId := huv.1 ▸ hid
      have hb1 : (a.id == userId) = false := by simp [hid]
      have hb2 : (b.id == userId) = false := by simp [hid2]
      have e1 : findUserById (a :: l1) userId = findUserById l1 userId := by
        simp [findUserById, List.find?, hb1]
      have e2 : findUserById (b :: l2) userId = findUserById l2 userId := by
        simp [findUserById, List.find?, hb2]
      rw [e1, e2]
      exact ih

/-- C10 The auth operations never leak the password hash: sanitization
depends only on the public fields; `getUserById` and `updateUser` return
identical results on any two stores whose rows differ only in their
password hashes; registration returns the same profile whatever the
password; and a successful login's profile is exactly the sanitized stored
user. -/
theorem auth_responses_ignore_password_hash :
    (∀ u v : StoredUser, samePublicFields u v → sanitizeUser u = sanitizeUser v) ∧
    (∀ (s1 s2 : List StoredUser) (userId : String),
      List.Forall₂ samePublicFields s1 s2 →
      getUserById s1 userId = getUserById s2 userId) ∧
    (∀ (s1 s2 : List StoredUser) (userId : String) (upd : ProfileUpdates),
      List.Forall₂ samePublicFields s1 s2 →
      updateUserService s1 userId upd = updateUserService s2 userId upd) ∧
    (∀ (jwtSecret : String) (store : List StoredUser) (data : RegisterData)
       (pw1 pw2 newId : String) (now : Int)
       (st1 st2 : List StoredUser) (p1 p2 : UserProfile) (t1 t2 : SignedJwt),
      registerService jwtSecret store { data with password := pw1 } newId now =
        .ok (st1, p1, t1) →
      registerService jwtSecret store { data with password := pw2 } newId now =
        .ok (st2, p2, t2) →
      p1 = p2) ∧
    (∀ (jwtSecret : String) (store : List StoredUser) (email pw : String)
       (now : Int) (profile : UserProfile) (token : SignedJwt),
      loginService jwtSecret store email pw now = .ok (profile, token) →
      ∃ u, findUserByEmail store email = some u ∧
        profile = sanitizeUser { u with lastActive := now }) := by
  refine ⟨sanitizeUser_congr, ?_, ?_, ?_, ?_⟩
  · intro s1 s2 userId h
    rcases findUserById_rel s1 s2 userId h with ⟨e1, e2⟩ | ⟨u, v, e1, e2, huv⟩
    · simp [getUserById, e1, e2]
    · simp [getUserById, e1, e2, sanitizeUser_congr u v huv]
  · intro s1 s2 userId upd h
    rcases findUserById_rel s1 s2 userId h with ⟨e1, e2⟩ | ⟨u, v, e1, e2, huv⟩
    · simp [updateUserService, e1, e2]
    · simp [updateUserService, e1, e2,
        sanitizeUser_congr _ _ (applyProfileUpdates_samePublic u v upd huv)]
  · intro jwtSecret store data pw1 pw2 newId now st1 st2 p1 p2 t1 t2 h1 h2
    unfold registerService at h1 h2
    cases hfind : findUserByEmail store data.email with
    | some w => rw [hfind] at h1; exact absurd h1 (by simp)
    | none =>
      rw [hfind] at h1 h2
      simp only [Except.ok.injEq, Prod.mk.injEq] at h1 h2
      rw [← h1.2.1, ← h2.2.1]
      rfl
  · intro jwtSecret store email pw now profile token h
    unfold loginService at h
    cases hfind : findUserByEmail store email with
    | none => rw [hfind] at h; exact absurd h (by simp)
    | some u =>
      rw [hfind] at h
      by_cases hc : bcryptCompare pw u.password = true
      · simp only [hc, if_true, Except.ok.injEq, Prod.mk.injEq] at h
        exact ⟨u, rfl, h.1.symm⟩
      · simp [hc] at h

/-- C10 witness: two users differing only in the password hash sanitize to
the same profile. -/
theorem auth_responses_ignore_password_hash_witness :
    samePublicFields
      ⟨"u1", "a@b.c", bcryptHash "x", "Ada", "L", "PM", "Beginner",
        none, none, defaultPreferences, 0, true⟩
      ⟨"u1", "a@b.c", bcryptHash "y", "Ada", "L", "PM", "Beginner",
        none, none, defaultPreferences, 0, true⟩ ∧
    sanitizeUser ⟨"u1", "a@b.c", bcryptHash "x", "Ada", "L", "PM", "Beginner",
        none, none, defaultPreferences, 0, true⟩ =
      sanitizeUser ⟨"u1", "a@b.c", bcryptHash "y", "Ada", "L", "PM", "Beginner",
        none, none, defaultPreferences, 0, true⟩ :=
  ⟨⟨rfl, rfl, rfl, rfl, rfl, rfl, rfl, rfl, rfl, rfl, rfl⟩,
   auth_responses_ignore_password_hash.1 _ _
     ⟨rfl, rfl, rfl, rfl, rfl, rfl, rfl, rfl, rfl, rfl, rfl⟩⟩

/-- Helper: an update payload never changes the `(userId, topicId)` key. -/
theorem applyUserProgressUpdates_key (x : UserProgressRow) (u : UserProgressUpdates) :
    (applyUserProgressUpdates x u).userId = x.userId ∧
    (applyUserProgressUpdates x u).topicId = x.topicId :=
  ⟨rfl, rfl⟩

/-- Helper: the row rewrite performed by `updateUserProgress` never changes
the `(userId, topicId)` key. -/
theorem updateRewrite_key (userId topicId : String) (u : UserProgressUpdates)
    (x : UserProgressRow) :
    ((if x.userId == userId && x.topicId == topicId then
        applyUserProgressUpdates x u else x).userId = x.userId) ∧
    ((if x.userId == userId && x.topicId == topicId then
        applyUserProgressUpdates x u else x).topicId = x.topicId) := by
  by_cases h : (x.userId == userId && x.topicId == topicId) = true
  · simp [h, applyUserProgressUpdates]
  · simp [h]

/-- C7 The ORM-declared bounds and uniqueness constraints are invariants:
`UserProgress` create/update keep every row's confidenceLevel in 1..10 and
masteryScore in 0..1 and keep `(userId, topicId)` pairs unique,
`LearningPath` create/update keep progress in 0..1, and `User` creation
keeps emails unique — every create/update that returns a row set preserves
the constraints. -/
theorem orm_invariants_preserved :
    (∀ (store : List UserProgressRow) (r : UserProgressRow) store',
      userProgressStoreInv store → createUserProgress store r = .ok store' →
      userProgressStoreInv store') ∧
    (∀ (store : List UserProgressRow) (userId topicId : String)
       (u : UserProgressUpdates) store',
      userProgressStoreInv store →
      updateUserProgress store userId topicId u = .ok store' →
      userProgressStoreInv store') ∧
    (∀ (store : List LearningPathRow) (r : LearningPathRow) store',
      learningPathStoreValid store → createLearningPath store r = .ok store' →
      learningPathStoreValid store') ∧
    (∀ (store : List LearningPathRow) (id : String) (p : Rat) store',
      learningPathStoreValid store →
      updateLearningPathProgress store id p = .ok store' →
      learningPathStoreValid store') ∧
    (∀ (store : List StoredUser) (u : StoredUser) store',
      userEmailsUnique store → createUserRow store u = .ok store' →
      userEmailsUnique store') := by
  refine ⟨?_, ?_, ?_, ?_, ?_⟩
  · intro store r store' hinv hok
    unfold createUserProgress at hok
    by_cases hv : userProgressRowValid r = true
    · by_cases hdup : store.any (fun x => sameProgressKey x r) = true
      · simp [hv, hdup] at hok
      · simp [hv, hdup] at hok
        subst hok
        constructor
        · intro x hx
          rcases List.mem_append.1 hx with hx | hx
          · exact hinv.1 x hx
          · simp at hx; subst hx; exact hv
        · rw [List.pairwise_append]
          refine ⟨hinv.2, List.pairwise_singleton _ _, ?_⟩
          intro a ha b hb
          simp at hb; subst hb
          simp only [List.any_eq_true, not_exists, not_and] at hdup
          have := hdup a ha
          simpa using this
    · simp [hv] at hok
  · intro store userId topicId u store' hinv hok
    unfold updateUserProgress at hok
    by_cases hbad : store.any (fun x => x.userId == userId && x.topicId == topicId &&
        !(userProgressRowValid (applyUserProgressUpdates x u))) = true
    · simp [hbad] at hok
    · simp only [hbad, Bool.false_eq_true, if_false, Except.ok.injEq] at hok
      subst hok
      simp only [List.any_eq_true, not_exists, not_and] at hbad
      constructor
      · intro x hx
        rcases List.mem_map.1 hx with ⟨y, hy, hyx⟩
        subst hyx
        by_cases hkey : (y.userId == userId && y.topicId == topicId) = true
        · rw [if_pos hkey]
          have := hbad y hy
          rw [hkey] at this
          simpa using this
        · rw [if_neg hkey]
          exact hinv.1 y hy
      · refine List.Pairwise.map _ ?_ hinv.2
        intro a b hab
        obtain ⟨ka1, ka2⟩ := updateRewrite_key userId topicId u a
        obtain ⟨kb1, kb2⟩ := updateRewrite_key userId topicId u b
        simp only [sameProgressKey, ka1, ka2, kb1, kb2]
        exact hab
  · intro store r store' hval hok
    unfold createLearningPath at hok
    by_cases hv : learningPathRowValid r = true
    · simp [hv] at hok
      subst hok
      intro x hx
      rcases List.mem_append.1 hx with hx | hx
      · exact hval x hx
      · simp at hx; subst hx; exact hv
    · simp [hv] at hok
  · intro store id p store' hval hok
    unfold updateLearningPathProgress at hok
    by_cases hbad : store.any (fun x => x.id == id &&
        !(learningPathRowValid { x with progress := p })) = true
    · simp [hbad] at hok
    · simp only [hbad, Bool.false_eq_true, if_false, Except.ok.injEq] at hok
      subst hok
      simp only [List.any_eq_true, not_exists, not_and] at hbad
      intro x hx
      rcases List.mem_map.1 hx with ⟨y, hy, hyx⟩
      subst hyx
      by_cases hkey : (y.id == id) = true
      · rw [if_pos hkey]
        have := hbad y hy
        rw [hkey] at this
        simpa using this
      · rw [if_neg hkey]
        exact hval y hy
  · intro store u store' huni hok
    unfold createUserRow at hok
    by_cases hdup : store.any (fun x => x.email == u.email) = true
    · simp [hdup] at hok
    · simp [hdup] at hok
      subst hok
      rw [userEmailsUnique, List.pairwise_append]
      refine ⟨huni, List.pairwise_singleton _ _, ?_⟩
      intro a ha b hb
      simp at hb; subst hb
      simp only [List.any_eq_true, not_exists, not_and] at hdup
      have := hdup a ha
      simpa using this

/-- C7 witness: creating a concrete in-bounds row in an empty table. -/
theorem orm_invariants_preserved_witness :
    userProgressStoreInv [] ∧
    createUserProgress [] ⟨"u1", "t1", 5, (1 : Rat) / 2⟩ =
      .ok [⟨"u1", "t1", 5, (1 : Rat) / 2⟩] ∧
    userProgressStoreInv [⟨"u1", "t1", 5, (1 : Rat) / 2⟩] :=
  ⟨⟨by simp, List.Pairwise.nil⟩,
   by norm_num [createUserProgress, userProgressRowValid],
   orm_invariants_preserved.1 [] ⟨"u1", "t1", 5, (1 : Rat) / 2⟩
     [⟨"u1", "t1", 5, (1 : Rat) / 2⟩] ⟨by simp, List.Pairwise.nil⟩
     (by norm_num [createUserProgress, userProgressRowValid])⟩

/-- Helper: a running left fold of additions equals the initial value plus
the sum of the mapped list. -/
theorem foldl_add_map {α : Type} (f : α → Int) (l : List α) (a : Int) :
    l.foldl (fun s x => s + f x) a = a + (l.map f).sum := by
  induction l generalizing a with
  | nil => simp
  | cons x xs ih => simp [ih, add_assoc]

/-- C8 counterexample: one learning session recording both confidence
values but a confidence drop (5 before, 3 after).  The code's average gain
is 0 (the session is filtered out), while the claim's arithmetic mean over
sessions recording both values is -2. -/
theorem avg_confidence_gain_counterexample :
    (calculateUserAnalytics 0 [] [⟨some 5, some 3⟩]).averageConfidenceGain = 0 ∧
    claimAverageConfidenceGain [⟨some 5, some 3⟩] = -2 ∧
    (calculateUserAnalytics 0 [] [⟨some 5, some 3⟩]).averageConfidenceGain ≠
      claimAverageConfidenceGain [⟨some 5, some 3⟩] := by
  refine ⟨by decide,
    by norm_num [claimAverageConfidenceGain, List.filter, List.map, List.sum],
    ?_⟩
  have h1 : (calculateUserAnalytics 0 [] [⟨some 5, some 3⟩]).averageConfidenceGain =
      0 := by decide
  have h2 : claimAverageConfidenceGain [⟨some 5, some 3⟩] = -2 := by
    norm_num [claimAverageConfidenceGain, List.filter, List.map, List.sum]
  rw [h1, h2]
  norm_num

/-- C8 (amended) The aggregates of `calculateUserAnalytics` over the user's
stored rows: completed-topic count, total minutes, completions in the
preceding 28 days divided by 4; the average confidence gain is the
arithmetic mean of `confidenceAfter - confidenceBefore` over the sessions
that record both values as truthy AND whose after-value strictly exceeds
the before-value (0 when no session qualifies). -/
theorem analytics_aggregates (today : Int) (progress : List UserProgressEntry)
    (sessions : List LearningSessionEntry) :
    (calculateUserAnalytics today progress sessions).totalTopicsCompleted =
      progress.countP (fun p => p.status == .COMPLETED) ∧
    (calculateUserAnalytics today progress sessions).totalTimeSpentMinutes =
      (progress.map (fun p => p.timeSpentMinutes)).sum ∧
    (calculateUserAnalytics today progress sessions).learningVelocity =
      ((progress.countP (fun p => p.status == .COMPLETED &&
        (match p.completedAt with
         | some d => decide (today - 28 ≤ d)
         | none => false)) : Nat) : Rat) / 4 ∧
    (calculateUserAnalytics today progress sessions).averageConfidenceGain =
      (if ((sessions.filter (fun s =>
          jsTruthy s.confidenceBefore && jsTruthy s.confidenceAfter &&
          decide (s.confidenceBefore.getD 0 < s.confidenceAfter.getD 0))).length = 0)
       then 0
       else (((sessions.filter (fun s =>
          jsTruthy s.confidenceBefore && jsTruthy s.confidenceAfter &&
          decide (s.confidenceBefore.getD 0 < s.confidenceAfter.getD 0))).map
            (fun s => s.confidenceAfter.getD 0 - s.confidenceBefore.getD 0)).sum : Int) /
          (((sessions.filter (fun s =>
            jsTruthy s.confidenceBefore && jsTruthy s.confidenceAfter &&
            decide (s.confidenceBefore.getD 0 < s.confidenceAfter.getD 0))).length : Nat) :
            Rat)) := by
  refine ⟨?_, ?_, ?_, ?_⟩
  · simp [calculateUserAnalytics, List.countP_eq_length_filter]
  · simp [calculateUserAnalytics, foldl_add_map]
  · simp [calculateUserAnalytics, calculateLearningVelocity,
      List.countP_eq_length_filter]
  · simp only [calculateUserAnalytics, calculateAverageConfidenceGain]
    have hf := foldl_add_map
      (fun s : LearningSessionEntry =>
        s.confidenceAfter.getD 0 - s.confidenceBefore.getD 0)
      (sessions.filter (fun s =>
        jsTruthy s.confidenceBefore && jsTruthy s.confidenceAfter &&
        decide (s.confidenceBefore.getD 0 < s.confidenceAfter.getD 0))) 0
    rw [hf]
    simp

end Synapse
